import Mathlib

/-!
Verification development for the sequential-validators library.

The JavaScript source is shallowly embedded: JS runtime values become the
inductive `JSValue`, the `ValidationResult` class (src/result.js) becomes a
Lean structure with its methods as pure functions (in-place mutation is
modelled as returning the updated value, matching the methods that
`return this`), the field validators (src/field-validators.js) and the
`SchemaValidator` (schema-validators.js) become functions over `JSValue`.
Code paths that can raise a JS exception (`getOrThrow`, property access on
null/undefined, calling a missing `includes` method) are embedded in
`Except String`.

Modelling boundaries, noted once here:
- JS numbers are modelled as integers plus NaN / +Infinity / -Infinity;
  non-integral doubles and their formatting are out of scope (no claim
  depends on them).
- Function-valued and prototype-inherited properties are not modelled:
  object property lookup (`jsGet`) sees own data fields only, and string /
  array index properties are not represented.
- Object identity (reference equality) is not modelled; `sameValueZero`
  compares structurally.  On primitive values it agrees exactly with the
  SameValueZero operation used by `Array.prototype.includes`
  (in particular NaN equals NaN there).
-/

/-- JS runtime numbers: integer-valued finite numbers plus the special
values NaN, Infinity and -Infinity (`typeof` is `number` for all of them). -/
inductive JSNum where
  | int (n : Int)
  | posInf
  | negInf
  | nan
deriving DecidableEq

/-- JS runtime values: null, undefined, booleans, numbers, strings,
arrays and plain objects (association lists of own enumerable fields,
in insertion order). -/
inductive JSValue where
  | null
  | undefined
  | bool (b : Bool)
  | num (n : JSNum)
  | str (s : String)
  | arr (elems : List JSValue)
  | obj (fields : List (String × JSValue))

/-- String form of a JS number, as produced by `String(value)`. -/
def jsNumToString : JSNum → String
  | JSNum.int n => if n < 0 then "-" ++ toString n.natAbs else toString n.natAbs
  | JSNum.posInf => "Infinity"
  | JSNum.negInf => "-Infinity"
  | JSNum.nan => "NaN"

mutual

/-- The JS `String(value)` coercion: `null`/`undefined`/booleans/numbers
print their names, strings are unchanged, arrays stringify as their
elements joined by `,` (with null/undefined elements becoming the empty
string, as `Array.prototype.join` does), plain objects stringify as
`[object Object]`. -/
def jsToString : JSValue → String
  | JSValue.null => "null"
  | JSValue.undefined => "undefined"
  | JSValue.bool true => "true"
  | JSValue.bool false => "false"
  | JSValue.num n => jsNumToString n
  | JSValue.str s => s
  | JSValue.arr xs => String.intercalate "," (jsElemStrings xs)
  | JSValue.obj _ => "[object Object]"

/-- Element strings used by `Array.prototype.join`: null and undefined
elements become `""`, every other element is coerced with `String(...)`. -/
def jsElemStrings : List JSValue → List String
  | [] => []
  | JSValue.null :: xs => "" :: jsElemStrings xs
  | JSValue.undefined :: xs => "" :: jsElemStrings xs
  | x :: xs => jsToString x :: jsElemStrings xs

end

mutual

/-- The SameValueZero comparison used by `Array.prototype.includes`;
on primitives it is exact (note NaN equals NaN under SameValueZero).
Arrays and objects are compared structurally, standing in for JS
reference identity, which a pure embedding cannot represent. -/
def sameValueZero : JSValue → JSValue → Bool
  | JSValue.null, JSValue.null => true
  | JSValue.undefined, JSValue.undefined => true
  | JSValue.bool a, JSValue.bool b => a == b
  | JSValue.num a, JSValue.num b => a == b
  | JSValue.str a, JSValue.str b => a == b
  | JSValue.arr xs, JSValue.arr ys => sameValueZeroList xs ys
  | JSValue.obj xs, JSValue.obj ys => sameValueZeroFields xs ys
  | _, _ => false

def sameValueZeroList : List JSValue → List JSValue → Bool
  | [], [] => true
  | x :: xs, y :: ys => sameValueZero x y && sameValueZeroList xs ys
  | _, _ => false

def sameValueZeroFields : List (String × JSValue) → List (String × JSValue) → Bool
  | [], [] => true
  | (k, v) :: xs, (l, w) :: ys => k == l && sameValueZero v w && sameValueZeroFields xs ys
  | _, _ => false

end

/-- An entry of a `ValidationResult.errors` array: either a plain message
string (field validators) or a `{field, errors}` record (schema validator). -/
inductive JSError where
  | msg (s : String)
  | fieldErr (field : String) (errors : List JSError)

/-- The JS string coercion of an error entry, as used by
`Array.prototype.join`: strings are unchanged, plain objects such as the
`{field, errors}` records stringify as `[object Object]`. -/
def errToString : JSError → String
  | JSError.msg s => s
  | JSError.fieldErr _ _ => "[object Object]"

/-- `errors.join(', ')` from `getOrThrow` in src/result.js. -/
def joinErrors (es : List JSError) : String :=
  String.intercalate ", " (es.map errToString)

/-- The ValidationResult class of src/result.js.  A raw
`new ValidationResult(isValid, errors)` leaves `value` undefined, so
`value` is a plain `JSValue` that the constructors below set explicitly. -/
structure ValidationResult where
  isValid : Bool
  errors : List JSError
  value : JSValue

/-- `ValidationResult.ok(value)` from src/result.js. -/
def ValidationResult.ok (v : JSValue) : ValidationResult :=
  ValidationResult.mk true [] v

/-- `ValidationResult.fail(errors)` from src/result.js, in the branch where
`errors` is already an array (`Array.isArray(errors)` true; the default
argument is the empty array).  `value` is never assigned, hence undefined. -/
def ValidationResult.fail (errors : List JSError) : ValidationResult :=
  ValidationResult.mk false errors JSValue.undefined

/-- `ValidationResult.fail(error)` from src/result.js, in the branch where a
single non-array error is given and is wrapped into a one-element array. -/
def ValidationResult.failOne (e : JSError) : ValidationResult :=
  ValidationResult.fail [e]

/-- `addError(error)` from src/result.js: pushes the error and sets
`isValid = false`; the mutated receiver (`return this`) is the returned value. -/
def ValidationResult.addError (r : ValidationResult) (e : JSError) : ValidationResult :=
  ValidationResult.mk false (r.errors ++ [e]) r.value

/-- `merge(other)` from src/result.js: if `other` is invalid the receiver
becomes invalid and `other.errors` are pushed after its own; otherwise the
receiver is returned untouched. -/
def ValidationResult.merge (r other : ValidationResult) : ValidationResult :=
  if other.isValid then r
  else ValidationResult.mk false (r.errors ++ other.errors) r.value

/-- `map(fn)` from src/result.js: failures are returned unchanged without
invoking `fn`; on success a fresh `ok(fn(this.value))` is built. -/
def ValidationResult.map (r : ValidationResult) (fn : JSValue → JSValue) : ValidationResult :=
  if r.isValid then ValidationResult.ok (fn r.value) else r

/-- `flatMap(fn)` from src/result.js: failures are returned unchanged
without invoking `fn`; on success `fn(this.value)` is returned directly. -/
def ValidationResult.flatMap (r : ValidationResult) (fn : JSValue → ValidationResult) :
    ValidationResult :=
  if r.isValid then fn r.value else r

/-- `getOrThrow()` from src/result.js; the raised `Error` is embedded as
`Except.error` carrying the message. -/
def ValidationResult.getOrThrow (r : ValidationResult) : Except String JSValue :=
  if r.isValid then Except.ok r.value
  else Except.error ("Validation failed: " ++ joinErrors r.errors)

/-- `getOr(defaultValue)` from src/result.js. -/
def ValidationResult.getOr (r : ValidationResult) (defaultValue : JSValue) : JSValue :=
  if r.isValid then r.value else defaultValue

/-- `isRequired(value, fieldName = 'Value')` from src/field-validators.js:
fails exactly on the strict-equality checks `value === null`,
`value === undefined`, `value === ''`. -/
def isRequired (value : JSValue) (fieldName : String := "Value") : ValidationResult :=
  match value with
  | JSValue.null | JSValue.undefined | JSValue.str "" =>
      ValidationResult.failOne (JSError.msg (fieldName ++ " is required"))
  | v => ValidationResult.ok v

/-- `isString(value)` from src/field-validators.js (`typeof value !== 'string'`). -/
def isString : JSValue → ValidationResult
  | JSValue.str s => ValidationResult.ok (JSValue.str s)
  | _ => ValidationResult.failOne (JSError.msg "Value must be a string")

/-- `isNumber(value)` from src/field-validators.js: fails when
`typeof value !== 'number'` or `isNaN(value)` (for a number-typed value the
global `isNaN` holds exactly when the value is NaN). -/
def isNumber : JSValue → ValidationResult
  | JSValue.num JSNum.nan => ValidationResult.failOne (JSError.msg "Value must be a number")
  | JSValue.num n => ValidationResult.ok (JSValue.num n)
  | _ => ValidationResult.failOne (JSError.msg "Value must be a number")

/-- `isBoolean(value)` from src/field-validators.js. -/
def isBoolean : JSValue → ValidationResult
  | JSValue.bool b => ValidationResult.ok (JSValue.bool b)
  | _ => ValidationResult.failOne (JSError.msg "Value must be a boolean")

/-- `isArray(value)` from src/field-validators.js (`Array.isArray`). -/
def isArray : JSValue → ValidationResult
  | JSValue.arr xs => ValidationResult.ok (JSValue.arr xs)
  | _ => ValidationResult.failOne (JSError.msg "Value must be an array")

/-- `isObject(value)` from src/field-validators.js: fails on null, on
non-object-typed values and on arrays. -/
def isObject : JSValue → ValidationResult
  | JSValue.obj fs => ValidationResult.ok (JSValue.obj fs)
  | _ => ValidationResult.failOne (JSError.msg "Value must be an object")

/-- `isOneOf(value, allowedValues)` from src/field-validators.js, in the
intended case where `allowedValues` is an array: membership via
`includes` (SameValueZero), failure message joining the allowed values
with `', '` as `Array.prototype.join` does. -/
def isOneOf (value : JSValue) (allowedValues : List JSValue) : ValidationResult :=
  if !(allowedValues.any (fun x => sameValueZero x value)) then
    ValidationResult.failOne
      (JSError.msg ("Value must be one of: " ++ String.intercalate ", " (jsElemStrings allowedValues)))
  else ValidationResult.ok value

/-- Whether the needle occurs as a substring of the haystack, with the
`''.includes` convention that an empty needle always occurs; stands for
`String.prototype.includes`. -/
def strIncludes (haystack needle : String) : Bool :=
  needle.isEmpty || (haystack.splitOn needle).length ≥ 2

/-- `isOneOf(value, allowedValues)` from src/field-validators.js under full
JS semantics, where `allowedValues` may be any runtime value:
`allowedValues.includes(value)` raises a TypeError when `allowedValues` is
null or undefined (property read on null/undefined) or has no callable
`includes` (numbers, booleans, plain objects); strings do have `includes`
(coercing the argument to a string) but then lack `join`, so the failure
branch raises.  Raised TypeErrors are embedded as `Except.error`. -/
def isOneOfJS (value allowedValues : JSValue) : Except String ValidationResult :=
  match allowedValues with
  | JSValue.null => Except.error "TypeError: Cannot read properties of null"
  | JSValue.undefined => Except.error "TypeError: Cannot read properties of undefined"
  | JSValue.arr xs =>
      if !(xs.any (fun x => sameValueZero x value)) then
        Except.ok (ValidationResult.failOne
          (JSError.msg ("Value must be one of: " ++ String.intercalate ", " (jsElemStrings xs))))
      else Except.ok (ValidationResult.ok value)
  | JSValue.str s =>
      if !(strIncludes s (jsToString value)) then
        Except.error "TypeError: allowedValues.join is not a function"
      else Except.ok (ValidationResult.ok value)
  | _ => Except.error "TypeError: allowedValues.includes is not a function"

/-- Modelled from the spec: `patterns.js` is not under src (only its
consumers are), so the PORT regex is taken from spec sections 4.2 and 6:
it matches exactly the strings whose form is a decimal integer in
`[0, 65535]`: non-empty, all decimal digits, and of numeric value at most
65535. -/
def portPatternTest (s : String) : Bool :=
  !s.data.isEmpty && s.data.all Char.isDigit &&
    (s.data.foldl (fun acc c => acc * 10 + (c.toNat - 48)) 0) ≤ 65535

/-- `isPort(value)` from src/field-validators.js: coerces the value to its
string form with `String(value)`, tests the PORT pattern against that
string, and on success wraps the original (uncoerced) value. -/
def isPort (value : JSValue) : ValidationResult :=
  let stringValue := jsToString value
  if !(portPatternTest stringValue) then
    ValidationResult.failOne (JSError.msg "Value is not a valid port number (0-65535)")
  else ValidationResult.ok value

/-- JS property read `data[name]` in the cases where it cannot raise:
own-field lookup on objects, undefined on every other base.  Prototype
inheritance and string/array index properties are outside the model. -/
def jsGet (data : JSValue) (name : String) : JSValue :=
  match data with
  | JSValue.obj fields =>
      match fields.find? (fun p => p.1 == name) with
      | some p => p.2
      | none => JSValue.undefined
  | _ => JSValue.undefined

/-- JS property read `data[name]` under full semantics: raises a TypeError
(embedded as `Except.error`) when `data` is null or undefined, and
otherwise yields `jsGet data name`. -/
def jsGetE (data : JSValue) (name : String) : Except String JSValue :=
  match data with
  | JSValue.null => Except.error "TypeError: Cannot read properties of null"
  | JSValue.undefined => Except.error "TypeError: Cannot read properties of undefined"
  | v => Except.ok (jsGet v name)

/-- The SchemaValidator class of schema-validators.js: its one piece of
state is the rule mapping, kept as an association list in insertion order
(`Object.entries` iterates string keys in insertion order; integer-like
field names, which JS would reorder first, are outside the model). -/
structure SchemaValidator where
  rules : List (String × (JSValue → ValidationResult))

/-- `addRule(fieldName, validator)` from schema-validators.js: JS property
assignment overwrites an existing key in place (keeping its position) and
appends a new key at the end. -/
def SchemaValidator.addRule (s : SchemaValidator) (fieldName : String)
    (validator : JSValue → ValidationResult) : SchemaValidator :=
  if s.rules.any (fun p => p.1 == fieldName) then
    SchemaValidator.mk (s.rules.map (fun p => if p.1 == fieldName then (fieldName, validator) else p))
  else
    SchemaValidator.mk (s.rules ++ [(fieldName, validator)])

/-- The error-collecting loop of `validate(data)` from schema-validators.js:
for each rule in order, read `data[fieldName]` (which may raise), run the
validator, and record a `{field, errors}` entry when the field fails.
A raised TypeError propagates out of the whole loop, as in JS. -/
def SchemaValidator.collect (rules : List (String × (JSValue → ValidationResult)))
    (data : JSValue) : Except String (List JSError) :=
  match rules with
  | [] => Except.ok []
  | (fieldName, validator) :: rest =>
      match jsGetE data fieldName with
      | Except.error e => Except.error e
      | Except.ok value =>
          let result := validator value
          match SchemaValidator.collect rest data with
          | Except.error e => Except.error e
          | Except.ok restErrors =>
              if result.isValid then Except.ok restErrors
              else Except.ok (JSError.fieldErr fieldName result.errors :: restErrors)

/-- `validate(data)` from schema-validators.js: run every rule, then return
`fail(errors)` if any field failed and `ok(data)` otherwise. -/
def SchemaValidator.validate (s : SchemaValidator) (data : JSValue) :
    Except String ValidationResult :=
  match SchemaValidator.collect s.rules data with
  | Except.error e => Except.error e
  | Except.ok errors =>
      if errors.length > 0 then Except.ok (ValidationResult.fail errors)
      else Except.ok (ValidationResult.ok data)

/-- `validateSchema(data, schema)` from schema-validators.js: construct a
SchemaValidator from the schema and call `validate` once. -/
def validateSchema (data : JSValue)
    (schema : List (String × (JSValue → ValidationResult))) : Except String ValidationResult :=
  (SchemaValidator.mk schema).validate data

/-- C1: for every failing Result `r` and every `f`, `r.map f` and
`r.flatMap f` each return a Result with `isValid` false and the same
`errors` as `r`.  Both in fact return `r` itself, so the output is
independent of `f` — the formal counterpart of "`f` is never invoked". -/
theorem failing_map_flatMap_short_circuit (r : ValidationResult)
    (f : JSValue → JSValue) (g : JSValue → ValidationResult)
    (h : r.isValid = false) :
    r.map f = r ∧ r.flatMap g = r ∧
    (r.map f).isValid = false ∧ (r.map f).errors = r.errors ∧
    (r.flatMap g).isValid = false ∧ (r.flatMap g).errors = r.errors := by
  simp [ValidationResult.map, ValidationResult.flatMap, h]

/-- Witness for C1 at the concrete failing Result `fail [msg "e"]`. -/
theorem failing_map_flatMap_short_circuit_witness :
    (ValidationResult.fail [JSError.msg "e"]).map (fun v => v) =
      ValidationResult.fail [JSError.msg "e"] ∧
    (ValidationResult.fail [JSError.msg "e"]).flatMap ValidationResult.ok =
      ValidationResult.fail [JSError.msg "e"] :=
  ⟨(failing_map_flatMap_short_circuit (ValidationResult.fail [JSError.msg "e"])
      (fun v => v) ValidationResult.ok rfl).1,
   (failing_map_flatMap_short_circuit (ValidationResult.fail [JSError.msg "e"])
      (fun v => v) ValidationResult.ok rfl).2.1⟩

/-- C2: merging a failing `other` makes the receiver a failure with
`other.errors` appended after its own errors in order (its `value`
untouched); merging a success leaves the receiver literally unchanged. -/
theorem merge_appends_failure_and_ignores_success (r other : ValidationResult) :
    (other.isValid = false →
      (r.merge other).isValid = false ∧
      (r.merge other).errors = r.errors ++ other.errors ∧
      (r.merge other).value = r.value) ∧
    (other.isValid = true → r.merge other = r) := by
  constructor
  · intro h
    simp [ValidationResult.merge, h]
  · intro h
    simp [ValidationResult.merge, h]

/-- Witness for C2: a failing merge into a success, and a success merge
into a failure, at concrete Results. -/
theorem merge_appends_failure_and_ignores_success_witness :
    ((ValidationResult.ok JSValue.null).merge (ValidationResult.fail [JSError.msg "e"])).isValid
        = false ∧
    (ValidationResult.fail [JSError.msg "x"]).merge (ValidationResult.ok JSValue.null) =
      ValidationResult.fail [JSError.msg "x"] :=
  ⟨((merge_appends_failure_and_ignores_success (ValidationResult.ok JSValue.null)
      (ValidationResult.fail [JSError.msg "e"])).1 rfl).1,
   (merge_appends_failure_and_ignores_success (ValidationResult.fail [JSError.msg "x"])
      (ValidationResult.ok JSValue.null)).2 rfl⟩

/-- C4: `getOrThrow` returns the value of a success, and for a failure
raises an error whose message is exactly `"Validation failed: "` followed
by the errors joined with `", "` (each error coerced to its JS string
form, as `Array.prototype.join` does). -/
theorem getOrThrow_returns_value_or_joined_message (r : ValidationResult) :
    (r.isValid = true → r.getOrThrow = Except.ok r.value) ∧
    (r.isValid = false →
      r.getOrThrow =
        Except.error ("Validation failed: " ++ String.intercalate ", " (r.errors.map errToString))) := by
  constructor
  · intro h
    simp [ValidationResult.getOrThrow, h]
  · intro h
    simp [ValidationResult.getOrThrow, joinErrors, h]

/-- Witness for C4, reproducing the spec's example: a failure with errors
`['a is required']` raises exactly `"Validation failed: a is required"`. -/
theorem getOrThrow_returns_value_or_joined_message_witness :
    (ValidationResult.fail [JSError.msg "a is required"]).getOrThrow =
      Except.error "Validation failed: a is required" := by
  have h := (getOrThrow_returns_value_or_joined_message
      (ValidationResult.fail [JSError.msg "a is required"])).2 rfl
  simpa [ValidationResult.fail, errToString, String.intercalate, String.intercalate.go] using h

/-- C8: `isRequired` fails exactly on null, undefined and the empty string,
with the single error `"<fieldName> is required"`; every other value
(including 0 and false) yields a success wrapping the original value; the
field name defaults to `"Value"`. -/
theorem isRequired_rejects_exactly_nullish_and_empty (v : JSValue) (fieldName : String) :
    ((v = JSValue.null ∨ v = JSValue.undefined ∨ v = JSValue.str "") →
      isRequired v fieldName = ValidationResult.fail [JSError.msg (fieldName ++ " is required")]) ∧
    ((v ≠ JSValue.null ∧ v ≠ JSValue.undefined ∧ v ≠ JSValue.str "") →
      isRequired v fieldName = ValidationResult.ok v) ∧
    isRequired v = isRequired v "Value" := by
  refine ⟨?_, ?_, rfl⟩
  · rintro (rfl | rfl | rfl) <;> rfl
  · rintro ⟨h1, h2, h3⟩
    cases v with
    | null => exact absurd rfl h1
    | undefined => exact absurd rfl h2
    | str s =>
        unfold isRequired
        split
        all_goals simp_all
    | bool b => rfl
    | num n => rfl
    | arr xs => rfl
    | obj fs => rfl

/-- Witness for C8 at the spec's own test points: 0 is accepted, the empty
string is rejected with the default field name. -/
theorem isRequired_rejects_exactly_nullish_and_empty_witness :
    isRequired (JSValue.num (JSNum.int 0)) "Value" =
      ValidationResult.ok (JSValue.num (JSNum.int 0)) ∧
    isRequired (JSValue.str "") "Value" =
      ValidationResult.fail [JSError.msg "Value is required"] := by
  refine ⟨(isRequired_rejects_exactly_nullish_and_empty (JSValue.num (JSNum.int 0)) "Value").2.1
      ⟨by simp, by simp, by simp⟩, ?_⟩
  have h := (isRequired_rejects_exactly_nullish_and_empty (JSValue.str "") "Value").1
      (Or.inr (Or.inr rfl))
  simpa using h

/-- C9: `isNumber` succeeds, wrapping the original value, exactly on
number-typed values other than NaN (so Infinity and -Infinity are
accepted); everything else fails with the single type message. -/
theorem isNumber_accepts_exactly_non_nan_numbers (v : JSValue) :
    ((isNumber v).isValid = true ↔ ∃ n, v = JSValue.num n ∧ n ≠ JSNum.nan) ∧
    ((isNumber v).isValid = true → isNumber v = ValidationResult.ok v) ∧
    ((isNumber v).isValid = false →
      isNumber v = ValidationResult.fail [JSError.msg "Value must be a number"]) := by
  cases v with
  | num n =>
      cases n <;>
        simp [isNumber, ValidationResult.ok, ValidationResult.failOne, ValidationResult.fail]
  | null => simp [isNumber, ValidationResult.failOne, ValidationResult.fail]
  | undefined => simp [isNumber, ValidationResult.failOne, ValidationResult.fail]
  | bool b => simp [isNumber, ValidationResult.failOne, ValidationResult.fail]
  | str s => simp [isNumber, ValidationResult.failOne, ValidationResult.fail]
  | arr xs => simp [isNumber, ValidationResult.failOne, ValidationResult.fail]
  | obj fs => simp [isNumber, ValidationResult.failOne, ValidationResult.fail]

/-- Witness for C9 at the spec's test points: Infinity is accepted, NaN is
rejected. -/
theorem isNumber_accepts_exactly_non_nan_numbers_witness :
    (isNumber (JSValue.num JSNum.posInf)).isValid = true ∧
    isNumber (JSValue.num JSNum.nan) = ValidationResult.fail [JSError.msg "Value must be a number"] :=
  ⟨(isNumber_accepts_exactly_non_nan_numbers (JSValue.num JSNum.posInf)).1.mpr
      ⟨JSNum.posInf, rfl, by simp⟩,
   (isNumber_accepts_exactly_non_nan_numbers (JSValue.num JSNum.nan)).2.2 rfl⟩

/-- C10: `isPort` tests the JS string form of the value against the PORT
pattern and, when the pattern matches, succeeds wrapping the original
value itself (not its string form); when the string form does not match it
fails with the single range message. -/
theorem isPort_matches_string_form_but_wraps_original (v : JSValue) :
    (portPatternTest (jsToString v) = true → isPort v = ValidationResult.ok v) ∧
    (portPatternTest (jsToString v) = false →
      isPort v = ValidationResult.fail [JSError.msg "Value is not a valid port number (0-65535)"]) := by
  constructor
  · intro h
    simp [isPort, h]
  · intro h
    simp [isPort, h, ValidationResult.failOne]

/-- Witness for C10: the number 80 is accepted and the success Result
carries the original number (not the string `"80"`); 70000 is out of range
and rejected. -/
theorem isPort_matches_string_form_but_wraps_original_witness :
    isPort (JSValue.num (JSNum.int 80)) = ValidationResult.ok (JSValue.num (JSNum.int 80)) ∧
    isPort (JSValue.num (JSNum.int 70000)) =
      ValidationResult.fail [JSError.msg "Value is not a valid port number (0-65535)"] :=
  ⟨(isPort_matches_string_form_but_wraps_original (JSValue.num (JSNum.int 80))).1
      (by simp [jsToString, jsNumToString]; decide),
   (isPort_matches_string_form_but_wraps_original (JSValue.num (JSNum.int 70000))).2
      (by simp [jsToString, jsNumToString]; decide)⟩

/-- Counterexample to C3 as stated: `ValidationResult.fail []` (the JS
default `ValidationResult.fail()`, whose `errors` argument defaults to the
empty array) is constructed through the `fail` entry point with no further
operations, yet has `isValid` false while `errors` is empty, so the
claimed equivalence fails on it. -/
theorem fail_empty_breaks_invalid_iff_errors_nonempty :
    ¬(((ValidationResult.fail []).isValid = false) ↔ (ValidationResult.fail []).errors ≠ []) := by
  simp [ValidationResult.fail]

/-- The Results constructible through the `ok` and `fail` entry points and
closed under `addError`, `merge`, `map` and `flatMap`, with `fail`
restricted to non-empty error arrays (the amendment the counterexample
forces; a single error coerced by `fail` is the one-element case). -/
inductive Reachable : ValidationResult → Prop where
  | ok (v : JSValue) : Reachable (ValidationResult.ok v)
  | fail (errs : List JSError) (h : errs ≠ []) : Reachable (ValidationResult.fail errs)
  | addError (r : ValidationResult) (e : JSError) :
      Reachable r → Reachable (r.addError e)
  | merge (r o : ValidationResult) :
      Reachable r → Reachable o → Reachable (r.merge o)
  | map (r : ValidationResult) (f : JSValue → JSValue) :
      Reachable r → Reachable (r.map f)
  | flatMap (r : ValidationResult) (f : JSValue → ValidationResult) :
      Reachable r → (∀ v, Reachable (f v)) → Reachable (r.flatMap f)

/-- C3 amended: for every Result constructed through `ok` and `fail`
(with `fail` given at least one error) and transformed by any sequence of
`addError`, `merge`, `map` and `flatMap`, `isValid` is false iff `errors`
is non-empty; and — unconditionally — once `isValid` is false none of the
four operations ever makes it true again. -/
theorem reachable_invalid_iff_errors_nonempty :
    (∀ r, Reachable r → ((r.isValid = false) ↔ r.errors ≠ [])) ∧
    (∀ (r : ValidationResult) (e : JSError), (r.addError e).isValid = false) ∧
    (∀ (r o : ValidationResult), r.isValid = false → (r.merge o).isValid = false) ∧
    (∀ (r : ValidationResult) (f : JSValue → JSValue),
      r.isValid = false → (r.map f).isValid = false) ∧
    (∀ (r : ValidationResult) (f : JSValue → ValidationResult),
      r.isValid = false → (r.flatMap f).isValid = false) := by
  refine ⟨?_, ?_, ?_, ?_, ?_⟩
  · intro r h
    induction h with
    | ok v => simp [ValidationResult.ok]
    | fail errs h => simp [ValidationResult.fail, h]
    | addError r e hr ih => simp [ValidationResult.addError]
    | merge r o hr ho ihr iho =>
        by_cases hv : o.isValid
        · simpa [ValidationResult.merge, hv] using ihr
        · have hne : o.errors ≠ [] := iho.mp (by simpa using hv)
          have hmm : r.merge o = ValidationResult.mk false (r.errors ++ o.errors) r.value := by
            simp [ValidationResult.merge, hv]
          rw [hmm]
          simp [hne]
    | map r f hr ih =>
        by_cases hv : r.isValid
        · simp [ValidationResult.map, hv, ValidationResult.ok]
        · simpa [ValidationResult.map, hv] using ih
    | flatMap r f hr hf ihr ihf =>
        by_cases hv : r.isValid
        · simpa [ValidationResult.flatMap, hv] using ihf r.value
        · simpa [ValidationResult.flatMap, hv] using ihr
  · intro r e
    simp [ValidationResult.addError]
  · intro r o h
    by_cases hv : o.isValid <;> simp [ValidationResult.merge, hv, h]
  · intro r f h
    simp [ValidationResult.map, h]
  · intro r f h
    simp [ValidationResult.flatMap, h]

/-- Witness for the amended C3 at concrete inputs: a one-error failure
satisfies the equivalence, and mapping over a concrete failure keeps it
invalid. -/
theorem reachable_invalid_iff_errors_nonempty_witness :
    (((ValidationResult.fail [JSError.msg "e"]).isValid = false) ↔
      (ValidationResult.fail [JSError.msg "e"]).errors ≠ []) ∧
    ((ValidationResult.fail [JSError.msg "e"]).map (fun v => v)).isValid = false :=
  ⟨reachable_invalid_iff_errors_nonempty.1 (ValidationResult.fail [JSError.msg "e"])
      (Reachable.fail [JSError.msg "e"] (by simp)),
   reachable_invalid_iff_errors_nonempty.2.2.2.1 (ValidationResult.fail [JSError.msg "e"])
      (fun v => v) rfl⟩

/-- The error-collecting loop of `validate` on a base that supports
property access never raises, and produces exactly the ordered
`{field, errors}` records of the failing rules. -/
theorem collect_eq_filterMap (rules : List (String × (JSValue → ValidationResult)))
    (data : JSValue) (h1 : data ≠ JSValue.null) (h2 : data ≠ JSValue.undefined) :
    SchemaValidator.collect rules data =
      Except.ok (rules.filterMap (fun p =>
        if (p.2 (jsGet data p.1)).isValid then none
        else some (JSError.fieldErr p.1 (p.2 (jsGet data p.1)).errors))) := by
  induction rules with
  | nil => rfl
  | cons hd tl ih =>
      obtain ⟨fn, validator⟩ := hd
      have hget : jsGetE data fn = Except.ok (jsGet data fn) := by
        cases data with
        | null => exact absurd rfl h1
        | undefined => exact absurd rfl h2
        | bool b => rfl
        | num n => rfl
        | str s => rfl
        | arr xs => rfl
        | obj fs => rfl
      by_cases hv : (validator (jsGet data fn)).isValid <;>
        simp [SchemaValidator.collect, hget, ih, List.filterMap_cons, hv]

/-- Adding a field whose name differs from the looked-up key does not
change the result of a JS property read. -/
theorem jsGet_cons_ne (nm : String) (v : JSValue) (fields : List (String × JSValue))
    (k : String) (h : k ≠ nm) :
    jsGet (JSValue.obj ((nm, v) :: fields)) k = jsGet (JSValue.obj fields) k := by
  have hb : (nm == k) = false := by
    simp [Ne.symm h]
  simp [jsGet, List.find?, hb]

/-- C5: on an object, `validate` runs each rule's validator on the field
read `data[fieldName]` (undefined when absent, via `jsGet`), collects one
`{field, errors}` record per failing rule in rule order, returns a failure
carrying exactly those records when any rule fails and otherwise a success
wrapping the original data; and a data field with no rule does not change
the outcome beyond appearing in the wrapped data. -/
theorem schema_validate_collects_failing_fields_in_rule_order
    (rules : List (String × (JSValue → ValidationResult)))
    (fields : List (String × JSValue)) :
    ((SchemaValidator.mk rules).validate (JSValue.obj fields) =
      Except.ok
        (if (rules.filterMap (fun p =>
            if (p.2 (jsGet (JSValue.obj fields) p.1)).isValid then none
            else some (JSError.fieldErr p.1 (p.2 (jsGet (JSValue.obj fields) p.1)).errors))).length > 0
         then ValidationResult.fail (rules.filterMap (fun p =>
            if (p.2 (jsGet (JSValue.obj fields) p.1)).isValid then none
            else some (JSError.fieldErr p.1 (p.2 (jsGet (JSValue.obj fields) p.1)).errors)))
         else ValidationResult.ok (JSValue.obj fields))) ∧
    (∀ (nm : String) (v : JSValue), (∀ p ∈ rules, p.1 ≠ nm) →
      (SchemaValidator.mk rules).validate (JSValue.obj ((nm, v) :: fields)) =
        Except.ok
          (if (rules.filterMap (fun p =>
              if (p.2 (jsGet (JSValue.obj fields) p.1)).isValid then none
              else some (JSError.fieldErr p.1 (p.2 (jsGet (JSValue.obj fields) p.1)).errors))).length > 0
           then ValidationResult.fail (rules.filterMap (fun p =>
              if (p.2 (jsGet (JSValue.obj fields) p.1)).isValid then none
              else some (JSError.fieldErr p.1 (p.2 (jsGet (JSValue.obj fields) p.1)).errors)))
           else ValidationResult.ok (JSValue.obj ((nm, v) :: fields)))) := by
  have main : ∀ fs : List (String × JSValue),
      (SchemaValidator.mk rules).validate (JSValue.obj fs) =
        Except.ok
          (if (rules.filterMap (fun p =>
              if (p.2 (jsGet (JSValue.obj fs) p.1)).isValid then none
              else some (JSError.fieldErr p.1 (p.2 (jsGet (JSValue.obj fs) p.1)).errors))).length > 0
           then ValidationResult.fail (rules.filterMap (fun p =>
              if (p.2 (jsGet (JSValue.obj fs) p.1)).isValid then none
              else some (JSError.fieldErr p.1 (p.2 (jsGet (JSValue.obj fs) p.1)).errors)))
           else ValidationResult.ok (JSValue.obj fs)) := by
    intro fs
    have hc := collect_eq_filterMap rules (JSValue.obj fs)
      (by intro h; exact JSValue.noConfusion h) (by intro h; exact JSValue.noConfusion h)
    simp only [SchemaValidator.validate, hc]
    split <;> simp_all
  refine ⟨main fields, ?_⟩
  intro nm v hnm
  have hcong :
      rules.filterMap (fun p =>
        if (p.2 (jsGet (JSValue.obj ((nm, v) :: fields)) p.1)).isValid then none
        else some (JSError.fieldErr p.1 (p.2 (jsGet (JSValue.obj ((nm, v) :: fields)) p.1)).errors)) =
      rules.filterMap (fun p =>
        if (p.2 (jsGet (JSValue.obj fields) p.1)).isValid then none
        else some (JSError.fieldErr p.1 (p.2 (jsGet (JSValue.obj fields) p.1)).errors)) := by
    apply List.filterMap_congr
    intro p hp
    rw [jsGet_cons_ne nm v fields p.1 (hnm p hp)]
  rw [main ((nm, v) :: fields), hcong]

/-- Witness for C5: a passing rule together with an extra field that has no
rule yields a success wrapping the whole original object, extra field
included (the spec's partial-validation test, with `isNumber` as the
pattern-free rule). -/
theorem schema_validate_collects_failing_fields_in_rule_order_witness :
    (SchemaValidator.mk [("age", isNumber)]).validate
        (JSValue.obj [("extra", JSValue.str "x"), ("age", JSValue.num (JSNum.int 5))]) =
      Except.ok (ValidationResult.ok
        (JSValue.obj [("extra", JSValue.str "x"), ("age", JSValue.num (JSNum.int 5))])) := by
  have h := (schema_validate_collects_failing_fields_in_rule_order
      [("age", isNumber)] [("age", JSValue.num (JSNum.int 5))]).2 "extra" (JSValue.str "x")
      (by intro p hp; simp at hp; rw [hp]; decide)
  simpa [jsGet, List.find?, isNumber, List.filterMap] using h

/-- C6: the standalone `validateSchema(data, schema)` returns exactly what
constructing a SchemaValidator from the schema and calling `validate`
once returns (in the source it is literally that call). -/
theorem validateSchema_eq_constructed_validate (data : JSValue)
    (schema : List (String × (JSValue → ValidationResult))) :
    validateSchema data schema = (SchemaValidator.mk schema).validate data := rfl

/-- Counterexample to C7 as stated: `isOneOf('a', null)` raises a
TypeError (the property read `allowedValues.includes` on null), so it is
not true that the field validators raise no exception for every argument. -/
theorem isOneOf_raises_on_null_allowedValues :
    isOneOfJS (JSValue.str "a") JSValue.null =
      Except.error "TypeError: Cannot read properties of null" := rfl

/-- C7 amended: no exception is raised provided the degenerate arguments
are excluded — `isOneOf` returns a plain Result for every value whenever
`allowedValues` is an array, and `validate` returns a plain Result for
every rule set whenever `data` is not null/undefined.  The remaining field
validators are embedded as total functions because their bodies contain no
throwing operation (`typeof`, `Array.isArray`, regex tests and `String(...)`
never raise), so failure is signalled only through failed Results there. -/
theorem validators_no_throw_on_wellformed_arguments :
    (∀ (value : JSValue) (xs : List JSValue),
      isOneOfJS value (JSValue.arr xs) = Except.ok (isOneOf value xs)) ∧
    (∀ (s : SchemaValidator) (data : JSValue),
      data ≠ JSValue.null → data ≠ JSValue.undefined →
      ∃ r, s.validate data = Except.ok r) := by
  constructor
  · intro value xs
    by_cases h : xs.any (fun x => sameValueZero x value) <;> simp [isOneOfJS, isOneOf, h]
  · intro s data h1 h2
    obtain ⟨rules⟩ := s
    have hc := collect_eq_filterMap rules data h1 h2
    simp only [SchemaValidator.validate, hc]
    split
    · exact ⟨_, rfl⟩
    · exact ⟨_, rfl⟩

/-- Witness for the amended C7 at concrete arguments: an empty-rule
validator applied to an empty object returns a Result, and `isOneOf` with
a one-element array returns a Result. -/
theorem validators_no_throw_on_wellformed_arguments_witness :
    (∃ r, (SchemaValidator.mk []).validate (JSValue.obj []) = Except.ok r) ∧
    isOneOfJS (JSValue.str "a") (JSValue.arr [JSValue.str "a"]) =
      Except.ok (isOneOf (JSValue.str "a") [JSValue.str "a"]) :=
  ⟨validators_no_throw_on_wellformed_arguments.2 (SchemaValidator.mk []) (JSValue.obj [])
      (by intro h; exact JSValue.noConfusion h) (by intro h; exact JSValue.noConfusion h),
   validators_no_throw_on_wellformed_arguments.1 (JSValue.str "a") [JSValue.str "a"]⟩
